import Mathlib

/-!
Verification of the SpiceMySponza renderer.

This file gives a shallow embedding of the core of the renderer: the
geometry packer (MyView::buildMeshData together with util::calculateVBOSize),
the pool capacity computation (MyView::highestInstanceCount and
MyView::allocateExtraBuffers), the per-frame instance batcher
(MyView::windowViewRender), the material table builder
(MyView::buildMaterialData and util::loadImagesFromScene), the scene and
lighting uniform block (MyView::UniformData and the lighting part of
MyView::setUniforms), and the attenuation routines of the fragment shader
sponza_fs.glsl.

Modelling conventions: scalars the C++ and GLSL code store as IEEE floats
are modelled as rationals; OpenGL buffer handles and GL calls are out of
scope, and a buffer upload is modelled as the list of values the code hands
to glBufferSubData.  The external SceneModel library (the scene
collaborator) is modelled by structures carrying exactly the fields the
renderer reads, as listed in section 6 of the specification.  Cursor and
size arithmetic uses unbounded naturals; overflowing a 32-bit cursor is
undefined behaviour in the source and is outside the model.
-/

namespace Sponza

/-- Three-component vector of scalars, standing for glm vec3. -/
abbrev Vec3 : Type := ℚ × ℚ × ℚ

/-- Two-component vector of scalars, standing for glm vec2. -/
abbrev Vec2 : Type := ℚ × ℚ

/-- A 4 by 4 matrix of scalars, standing for glm mat4. -/
abbrev Mat4 : Type := Matrix (Fin 4) (Fin 4) ℚ

/-- MAX_LIGHTS as defined in UniformData.h. -/
def MAX_LIGHTS : ℕ := 20

/-! ### Byte layout of the uniform block (UniformData.h)

UniformData.h wraps every declaration in pragma pack (push, 4), so each
field is 4-byte aligned and the byte layout is exactly the sum of the
declared field sizes, in declaration order. -/

/-- Byte size of a float. -/
def sizeofFloat : ℕ := 4

/-- Byte size of an int. -/
def sizeofInt : ℕ := 4

/-- Byte size of glm::vec3 under 4-byte packing. -/
def sizeofVec3 : ℕ := 3 * sizeofFloat

/-- Byte size of glm::vec4 under 4-byte packing. -/
def sizeofVec4 : ℕ := 4 * sizeofFloat

/-- Byte size of glm::mat4 under 4-byte packing. -/
def sizeofMat4 : ℕ := 16 * sizeofFloat

/-- Byte size of struct Light of UniformData.h: position, type, direction,
coneAngle, colour, concentration, aConstant, aLinear, aQuadratic,
emitWireframe, in declaration order under 4-byte packing. -/
def sizeofLight : ℕ :=
  sizeofVec3 + sizeofFloat + sizeofVec3 + sizeofFloat + sizeofVec3 + sizeofFloat
    + sizeofFloat + sizeofFloat + sizeofFloat + sizeofInt

/-- Byte size of MyView::UniformData: m_projection, m_view, m_cameraPosition,
m_ambience, the 24-float m_unused alignment array, m_numLights, the 3-float
m_alignment array, and the MAX_LIGHTS light records, in declaration order
under 4-byte packing. -/
def sizeofUniformData : ℕ :=
  sizeofMat4 + sizeofMat4 + sizeofVec4 + sizeofVec4 + 24 * sizeofFloat
    + sizeofInt + 3 * sizeofFloat + MAX_LIGHTS * sizeofLight

/-- UniformData::sceneOffset. -/
def sceneOffset : ℕ := 0

/-- UniformData::lightingSize: sizeof (Light) * MAX_LIGHTS + sizeof (glm::vec4). -/
def lightingSize : ℕ := sizeofLight * MAX_LIGHTS + sizeofVec4

/-- UniformData::lightingOffset: sizeof (UniformData) - lightingSize(). -/
def lightingOffset : ℕ := sizeofUniformData - lightingSize

/-- UniformData::sceneSize: returns lightingOffset(). -/
def sceneSize : ℕ := lightingOffset

/-! ### The attenuation routines of sponza_fs.glsl -/

/-- GLSL clamp on rationals. -/
def clampQ (x lo hi : ℚ) : ℚ := max lo (min x hi)

/-- GLSL smoothstep on rationals: t is the clamped normalised position of x
between edge0 and edge1, and the result is t * t * (3 - 2 * t). -/
def smoothstep (edge0 edge1 x : ℚ) : ℚ :=
  let t := clampQ ((x - edge0) / (edge1 - edge0)) 0 1
  t * t * (3 - 2 * t)

/-- spotLightConeAttenuation of sponza_fs.glsl.  The shader computes
halfAngle as the cosine of half the stored cone angle field, and coneFactor
as max (dot (surface, light.directionAngle.xyz)) 0 where surface is the
negated surface-to-light direction.  The cosine call is transcendental, so
the embedding takes the two scalars halfAngle (the cosine value the shader
compares against) and dotSurfaceDirection (the value of the dot product)
as inputs and mirrors the remaining arithmetic of the routine exactly. -/
def spotLightConeAttenuation (halfAngle dotSurfaceDirection : ℚ) : ℚ :=
  let coneFactor := max dotSurfaceDirection 0
  smoothstep 0 1 ((coneFactor - halfAngle) / halfAngle)

/-- pointLightAttenuation of sponza_fs.glsl: the reciprocal of
aConstant + aLinear * d + aQuadratic * d * d. -/
def pointLightAttenuation (aConstant aLinear aQuadratic distance : ℚ) : ℚ :=
  1 / (aConstant + aLinear * distance + aQuadratic * distance * distance)

/-- Unfolding equation for spotLightConeAttenuation. -/
theorem spotLightConeAttenuation_eq (halfAngle dotValue : ℚ) :
    spotLightConeAttenuation halfAngle dotValue
      = smoothstep 0 1 ((max dotValue 0 - halfAngle) / halfAngle) := rfl

/-- smoothstep between 0 and 1 vanishes at 0. -/
theorem smoothstep_zero : smoothstep 0 1 0 = 0 := by
  norm_num [smoothstep, clampQ]

/-- smoothstep between 0 and 1 is strictly positive on positive input. -/
theorem smoothstep_pos (x : ℚ) (hx : 0 < x) : 0 < smoothstep 0 1 x := by
  have hmin : 0 < min x 1 := lt_min hx one_pos
  have ht : 0 < max (0 : ℚ) (min x 1) := lt_max_of_lt_right hmin
  have ht1 : max (0 : ℚ) (min x 1) ≤ 1 := max_le zero_le_one (min_le_right _ _)
  have harg : (x - 0) / (1 - 0) = x := by norm_num
  show 0 < clampQ ((x - 0) / (1 - 0)) 0 1 * clampQ ((x - 0) / (1 - 0)) 0 1
      * (3 - 2 * clampQ ((x - 0) / (1 - 0)) 0 1)
  unfold clampQ
  rw [harg]
  nlinarith

/-! ### Theorems for claims C10, C7 and C8 -/

/-- C10: the scene sub-range of the uniform block starts at byte offset 0 and
its size equals the lighting sub-range byte offset; the lighting offset is a
multiple of 256 bytes; the lighting size equals MAX_LIGHTS times the light
record size plus 16 bytes for the count word; and the two sizes sum exactly
to the total byte size of the block. -/
theorem uniformBlockSplit_spec :
    sceneOffset = 0 ∧
    sceneSize = lightingOffset ∧
    lightingOffset % 256 = 0 ∧
    lightingSize = MAX_LIGHTS * sizeofLight + 16 ∧
    sceneSize + lightingSize = sizeofUniformData := by
  refine ⟨rfl, rfl, ?_, ?_, ?_⟩ <;> decide

/-- C7 counterexample: with a cone so wide that the cosine of its half angle
is negative (here the cosine is -1/2, a half angle of 120 degrees), a
direction whose dot product with the axis is 0 lies strictly inside the cone
(0 exceeds -1/2), yet the computed cone attenuation is 0, not strictly
positive as the claim states for every spot light. -/
theorem spotConeAttenuation_wideCone_counterexample :
    (-(1 : ℚ)/2) < 0 ∧
    spotLightConeAttenuation (-(1 : ℚ)/2) 0 = 0 ∧
    ¬ 0 < spotLightConeAttenuation (-(1 : ℚ)/2) 0 := by
  have h : spotLightConeAttenuation (-(1 : ℚ)/2) 0 = 0 := by
    rw [spotLightConeAttenuation_eq]
    norm_num [smoothstep, clampQ]
  exact ⟨by norm_num, h, by rw [h]; exact lt_irrefl 0⟩

/-- C7 (amended): for a spot light whose cone half angle has a positive
cosine (an acute half angle), the cone attenuation computed by
spotLightConeAttenuation is exactly 0 when the surface-to-light direction
lies exactly at the cone half angle (its dot product with the axis equals
that cosine), and strictly positive for any direction strictly inside the
cone (dot product strictly above that cosine). -/
theorem spotConeAttenuation_boundary_inside (halfAngle dotValue : ℚ)
    (hpos : 0 < halfAngle) :
    (dotValue = halfAngle → spotLightConeAttenuation halfAngle dotValue = 0) ∧
    (halfAngle < dotValue → 0 < spotLightConeAttenuation halfAngle dotValue) := by
  constructor
  · rintro rfl
    rw [spotLightConeAttenuation_eq, max_eq_left hpos.le, sub_self, zero_div,
      smoothstep_zero]
  · intro hlt
    have hd : 0 < dotValue := hpos.trans hlt
    rw [spotLightConeAttenuation_eq, max_eq_left hd.le]
    exact smoothstep_pos _ (div_pos (sub_pos.mpr hlt) hpos)

/-- C7 witness: the amended theorem applied at the concrete cosine value 1/2
and dot value 3/4. -/
theorem spotConeAttenuation_boundary_inside_witness :
    ((3 : ℚ)/4 = 1/2 → spotLightConeAttenuation (1/2) (3/4) = 0) ∧
    ((1 : ℚ)/2 < 3/4 → 0 < spotLightConeAttenuation (1/2) (3/4)) :=
  spotConeAttenuation_boundary_inside (1/2) (3/4) (by norm_num)

/-- C8: pointLightAttenuation equals the reciprocal of
aConstant + aLinear * d + aQuadratic * d * d for every distance d; at
distance 0 it equals the reciprocal of aConstant; and when all three
coefficients are positive it tends to 0 as the distance tends to infinity
(for every positive bound there is a distance beyond which the attenuation
stays below it). -/
theorem pointAttenuation_spec (aC aL aQ : ℚ) :
    (∀ d : ℚ, pointLightAttenuation aC aL aQ d
        = 1 / (aC + aL * d + aQ * d * d)) ∧
    pointLightAttenuation aC aL aQ 0 = 1 / aC ∧
    (0 < aC → 0 < aL → 0 < aQ → ∀ ε : ℚ, 0 < ε →
      ∃ D : ℚ, ∀ d : ℚ, D ≤ d → pointLightAttenuation aC aL aQ d < ε) := by
  refine ⟨fun d => rfl, ?_, ?_⟩
  · unfold pointLightAttenuation
    norm_num
  · intro hc hl hq ε hε
    refine ⟨1 + 1 / (aL * ε), fun d hd => ?_⟩
    have hinv : 0 < 1 / (aL * ε) := by positivity
    have hd1 : 1 < d := by linarith
    have hd0 : 0 < d := lt_trans one_pos hd1
    have hlow : 1 / (aL * ε) < d := by linarith
    have hald : 1 / ε < aL * d := by
      have h1 : aL * (1 / (aL * ε)) = 1 / ε := by
        field_simp
      calc 1 / ε = aL * (1 / (aL * ε)) := h1.symm
        _ < aL * d := by
          exact mul_lt_mul_of_pos_left hlow hl
    have hq2 : 0 < aQ * d * d := mul_pos (mul_pos hq hd0) hd0
    have hden : 1 / ε < aC + aL * d + aQ * d * d := by linarith
    have hdenpos : 0 < aC + aL * d + aQ * d * d := by
      have hεinv : 0 < 1 / ε := by positivity
      linarith
    unfold pointLightAttenuation
    rw [div_lt_iff₀ hdenpos]
    have hεden : ε * (1 / ε) < ε * (aC + aL * d + aQ * d * d) :=
      mul_lt_mul_of_pos_left hden hε
    have hone : ε * (1 / ε) = 1 := by
      field_simp
    linarith

/-! ### The geometry packer (MyView::buildMeshData, util::calculateVBOSize) -/

/-- An interleaved vertex as assembled by util::assembleVertices: position,
normal and texture coordinate. -/
structure Vertex where
  position : Vec3
  normal : Vec3
  texturePoint : Vec2

/-- Byte size of Vertex: two vec3 fields and one vec2 field, the 32-byte
interleaved stride of the shared vertex buffer. -/
def sizeofVertex : ℕ := sizeofVec3 + sizeofVec3 + 2 * sizeofFloat

/-- Byte size of an unsigned int, the element type of the shared index
buffer. -/
def sizeofUInt : ℕ := 4

/-- A SceneModel::Mesh as consumed by the geometry packer: the external
scene collaborator hands over an id and the attribute and element arrays
(the fields the packer reads, per section 6 of the specification). -/
structure SceneMesh where
  meshId : ℕ
  positionArray : List Vec3
  normalArray : List Vec3
  textureCoordinateArray : List Vec2
  elementArray : List ℕ

/-- A placeholder SceneMesh used as the default of list indexing. -/
def dummyMesh : SceneMesh :=
  { meshId := 0, positionArray := [], normalArray := [],
    textureCoordinateArray := [], elementArray := [] }

/-- util::assembleVertices: resizes the vertex vector to the position count
and fills slot i from the three attribute arrays.  An out-of-range attribute
read is undefined behaviour in the C++ and is modelled as a zero value; the
vertex count always equals the position count, as in the source. -/
def assembleVertices (mesh : SceneMesh) : List Vertex :=
  (List.range mesh.positionArray.length).map fun i =>
    { position := mesh.positionArray.getD i (0, 0, 0)
      normal := mesh.normalArray.getD i (0, 0, 0)
      texturePoint := mesh.textureCoordinateArray.getD i (0, 0) }

/-- util::calculateVBOSize: sums the position counts and element counts over
every mesh and returns the two byte sizes (vertices times sizeof Vertex,
elements times sizeof unsigned int). -/
def calculateVBOSize (meshes : List SceneMesh) : ℕ × ℕ :=
  ((meshes.map fun mesh => mesh.positionArray.length).sum * sizeofVertex,
   (meshes.map fun mesh => mesh.elementArray.length).sum * sizeofUInt)

/-- MyView::Mesh: the per-mesh addressing record written by the packer. -/
structure Mesh where
  verticesIndex : ℕ
  elementsOffset : ℕ
  elementCount : ℕ
deriving DecidableEq

/-- The default pair used when indexing the packed mesh list. -/
def dummyPair : ℕ × Mesh :=
  (0, { verticesIndex := 0, elementsOffset := 0, elementCount := 0 })

/-- The number of vertices a mesh contributes to the shared vertex buffer
(the size of the vector util::assembleVertices fills for it). -/
def vertexCount (mesh : SceneMesh) : ℕ := (assembleVertices mesh).length

/-- The loop of MyView::buildMeshData from given cursor values: for each mesh
in input order, record the running vertex cursor (in vertices), the running
element byte cursor and the element count of the mesh itself, then advance
the vertex cursor by the assembled vertex count and the byte cursor by the
element count times sizeof unsigned int. -/
def buildMeshDataFrom : List SceneMesh → ℕ → ℕ → List (ℕ × Mesh)
  | [], _, _ => []
  | mesh :: rest, vertexIndex, elementOffset =>
    (mesh.meshId,
      { verticesIndex := vertexIndex
        elementsOffset := elementOffset
        elementCount := mesh.elementArray.length }) ::
      buildMeshDataFrom rest (vertexIndex + (assembleVertices mesh).length)
        (elementOffset + mesh.elementArray.length * sizeofUInt)

/-- MyView::buildMeshData: both running cursors start at zero. -/
def buildMeshData (meshes : List SceneMesh) : List (ℕ × Mesh) :=
  buildMeshDataFrom meshes 0 0

theorem vertexCount_eq (mesh : SceneMesh) :
    vertexCount mesh = mesh.positionArray.length := by
  simp [vertexCount, assembleVertices]

theorem buildMeshDataFrom_length (meshes : List SceneMesh) :
    ∀ vertexIndex elementOffset,
      (buildMeshDataFrom meshes vertexIndex elementOffset).length
        = meshes.length := by
  induction meshes with
  | nil => intro v e; rfl
  | cons mesh rest ih =>
    intro v e
    simp [buildMeshDataFrom, ih]

/-- Closed form of the packed record at index i, for arbitrary starting
cursors. -/
theorem buildMeshDataFrom_getD (meshes : List SceneMesh) :
    ∀ vertexIndex elementOffset i, i < meshes.length →
      (buildMeshDataFrom meshes vertexIndex elementOffset).getD i dummyPair
        = ((meshes.getD i dummyMesh).meshId,
           { verticesIndex :=
               vertexIndex + ((meshes.take i).map vertexCount).sum
             elementsOffset :=
               elementOffset + ((meshes.take i).map fun mesh =>
                 mesh.elementArray.length * sizeofUInt).sum
             elementCount := (meshes.getD i dummyMesh).elementArray.length }) := by
  induction meshes with
  | nil => intro v e i hi; exact absurd hi (by simp)
  | cons mesh rest ih =>
    intro v e i hi
    cases i with
    | zero => simp [buildMeshDataFrom]
    | succ i =>
      have hi2 : i < rest.length := by simpa using hi
      have := ih (v + (assembleVertices mesh).length)
        (e + mesh.elementArray.length * sizeofUInt) i hi2
      simp only [buildMeshDataFrom, List.getD_cons_succ, List.take_succ_cons,
        List.map_cons, List.sum_cons, this, vertexCount, Nat.add_assoc]

/-- Prefix sums over a list of naturals are monotone in the prefix length. -/
theorem sum_take_le_sum_take (l : List ℕ) (i j : ℕ) (hij : i ≤ j) :
    (l.take i).sum ≤ (l.take j).sum := by
  have hsplit : l.take j = (l.take j).take i ++ (l.take j).drop i :=
    (List.take_append_drop i (l.take j)).symm
  have htake : (l.take j).take i = l.take i := by
    rw [List.take_take, min_eq_left hij]
  calc (l.take i).sum ≤ (l.take i).sum + ((l.take j).drop i).sum := Nat.le_add_right _ _
    _ = ((l.take j).take i).sum + ((l.take j).drop i).sum := by rw [htake]
    _ = ((l.take j).take i ++ (l.take j).drop i).sum := (List.sum_append).symm
    _ = (l.take j).sum := by rw [← hsplit]

/-- The prefix sum through index i plus the element at i is the prefix sum
through index i + 1. -/
theorem sum_take_succ_eq (l : List ℕ) (d : ℕ) (i : ℕ) (hi : i < l.length) :
    (l.take i).sum + l.getD i d = (l.take (i + 1)).sum := by
  rw [List.take_succ, List.sum_append, List.getD_eq_getElem?_getD,
    List.getElem?_eq_getElem hi]
  simp

/-- C1: for every input list of meshes, the packed record of mesh i holds a
vertex offset equal to the sum of the vertex counts of meshes 0..i-1 (in
vertices, not bytes), an index byte offset equal to the sum of the index
byte sizes of meshes 0..i-1, and an element count equal to the index count
of mesh i itself; the sum of the per-mesh vertex counts equals the logical
length in vertices of the shared vertex buffer allocated from
util::calculateVBOSize; and the recorded vertex ranges and index byte
ranges of two distinct meshes never overlap. -/
theorem geometryPacker_spec (meshes : List SceneMesh) :
    (∀ i, i < meshes.length →
      ((buildMeshData meshes).getD i dummyPair).2.verticesIndex
          = ((meshes.take i).map vertexCount).sum ∧
      ((buildMeshData meshes).getD i dummyPair).2.elementsOffset
          = ((meshes.take i).map fun mesh =>
              mesh.elementArray.length * sizeofUInt).sum ∧
      ((buildMeshData meshes).getD i dummyPair).2.elementCount
          = (meshes.getD i dummyMesh).elementArray.length) ∧
    (calculateVBOSize meshes).1 / sizeofVertex = (meshes.map vertexCount).sum ∧
    (∀ i j, i < j → j < meshes.length →
      ((buildMeshData meshes).getD i dummyPair).2.verticesIndex
          + vertexCount (meshes.getD i dummyMesh)
        ≤ ((buildMeshData meshes).getD j dummyPair).2.verticesIndex ∧
      ((buildMeshData meshes).getD i dummyPair).2.elementsOffset
          + ((buildMeshData meshes).getD i dummyPair).2.elementCount * sizeofUInt
        ≤ ((buildMeshData meshes).getD j dummyPair).2.elementsOffset) := by
  have hrec : ∀ i, i < meshes.length →
      (buildMeshData meshes).getD i dummyPair
        = ((meshes.getD i dummyMesh).meshId,
           { verticesIndex := ((meshes.take i).map vertexCount).sum
             elementsOffset := ((meshes.take i).map fun mesh =>
               mesh.elementArray.length * sizeofUInt).sum
             elementCount := (meshes.getD i dummyMesh).elementArray.length }) := by
    intro i hi
    have := buildMeshDataFrom_getD meshes 0 0 i hi
    simpa [buildMeshData] using this
  refine ⟨?_, ?_, ?_⟩
  · intro i hi
    rw [hrec i hi]
    exact ⟨rfl, rfl, rfl⟩
  · have hpos : (meshes.map fun mesh => mesh.positionArray.length)
        = meshes.map vertexCount := by
      simp [vertexCount_eq]
    show (meshes.map fun mesh => mesh.positionArray.length).sum * sizeofVertex
        / sizeofVertex = (meshes.map vertexCount).sum
    rw [hpos, Nat.mul_div_cancel _ (by decide : 0 < sizeofVertex)]
  · intro i j hij hj
    have hi : i < meshes.length := lt_trans hij hj
    rw [hrec i hi, hrec j hj]
    constructor
    · show ((meshes.take i).map vertexCount).sum
          + vertexCount (meshes.getD i dummyMesh)
        ≤ ((meshes.take j).map vertexCount).sum
      have hmap : ((meshes.map vertexCount).take i).sum
          = ((meshes.take i).map vertexCount).sum := by rw [List.map_take]
      have hmapj : ((meshes.map vertexCount).take j).sum
          = ((meshes.take j).map vertexCount).sum := by rw [List.map_take]
      have hget : (meshes.map vertexCount).getD i 0
          = vertexCount (meshes.getD i dummyMesh) := by
        rw [List.getD_eq_getElem?_getD, List.getD_eq_getElem?_getD,
          List.getElem?_map, List.getElem?_eq_getElem hi]
        rfl
      have hstep := sum_take_succ_eq (meshes.map vertexCount) 0 i (by simpa using hi)
      have hmono := sum_take_le_sum_take (meshes.map vertexCount) (i + 1) j hij
      rw [hmap, hmapj] at *
      omega
    · show ((meshes.take i).map fun mesh =>
            mesh.elementArray.length * sizeofUInt).sum
          + (meshes.getD i dummyMesh).elementArray.length * sizeofUInt
        ≤ ((meshes.take j).map fun mesh =>
            mesh.elementArray.length * sizeofUInt).sum
      have hmap : ∀ k, ((meshes.map fun mesh =>
            mesh.elementArray.length * sizeofUInt).take k).sum
          = ((meshes.take k).map fun mesh =>
              mesh.elementArray.length * sizeofUInt).sum := by
        intro k; rw [List.map_take]
      have hget : (meshes.map fun mesh =>
            mesh.elementArray.length * sizeofUInt).getD i 0
          = (meshes.getD i dummyMesh).elementArray.length * sizeofUInt := by
        rw [List.getD_eq_getElem?_getD, List.getD_eq_getElem?_getD,
          List.getElem?_map, List.getElem?_eq_getElem hi]
        rfl
      have hstep := sum_take_succ_eq (meshes.map fun mesh =>
        mesh.elementArray.length * sizeofUInt) 0 i (by simpa using hi)
      have hmono := sum_take_le_sum_take (meshes.map fun mesh =>
        mesh.elementArray.length * sizeofUInt) (i + 1) j hij
      rw [hmap, hmap] at *
      omega

/-! ### The external scene collaborator (SceneModel) -/

/-- A SceneModel::Light as supplied by the external scene collaborator; its
fields follow section 6 of the specification (position, direction, colour,
cone angle, concentration, attenuation coefficients). -/
structure SceneLight where
  position : Vec3
  direction : Vec3
  colour : Vec3
  coneAngleDegrees : ℚ
  concentration : ℚ
  constantAttenuation : ℚ
  linearAttenuation : ℚ
  quadraticAttenuation : ℚ
deriving DecidableEq

/-- A placeholder SceneLight used as the default of list indexing. -/
def dummySceneLight : SceneLight :=
  { position := (0, 0, 0), direction := (0, 0, 0), colour := (0, 0, 0),
    coneAngleDegrees := 0, concentration := 0, constantAttenuation := 0,
    linearAttenuation := 0, quadraticAttenuation := 0 }

/-- A SceneModel::Instance as read by the renderer: a transformation matrix
and a material id. -/
structure Instance where
  transformationMatrix : Mat4
  materialId : ℕ

/-- The SceneModel::Context as read by the renderer: per-mesh instance id
lists, per-id instances, the light list, the camera and the ambient
colour. -/
structure SceneContext where
  instancesByMeshId : ℕ → List ℕ
  instanceById : ℕ → Instance
  allLights : List SceneLight
  cameraPosition : Vec3
  cameraDirection : Vec3
  ambientColour : Vec3

/-! ### The scene and lighting uniform block (UniformData.h, UniformData.cpp) -/

/-- The LightType enumeration of UniformData.h. -/
inductive LightType
  | Point
  | Spot
  | Directional
deriving DecidableEq

/-- The cast performed by Light::setType: the enumeration value as the float
stored in the type field (Point 0, Spot 1, Directional 2). -/
def LightType.toScalar : LightType → ℚ
  | .Point => 0
  | .Spot => 1
  | .Directional => 2

/-- struct Light of UniformData.h, with the member initialisers of the
declaration as the default field values. -/
structure Light where
  position : Vec3 := (1, 1, 1)
  type : ℚ := 0
  direction : Vec3 := (1, 1, 1)
  coneAngle : ℚ := 90
  colour : Vec3 := (1, 1, 1)
  concentration : ℚ := 7
  aConstant : ℚ := 1
  aLinear : ℚ := 0
  aQuadratic : ℚ := 1
  emitWireframe : ℤ := 0
deriving DecidableEq

/-- MyView::UniformData, with the member initialisers of the declaration as
the default field values (the padding arrays m_unused and m_alignment carry
no data and are part of the byte-layout constants above). -/
structure UniformData where
  projection : Mat4 := 1
  view : Mat4 := 1
  cameraPosition : Vec3 := (0, 0, 0)
  ambience : Vec3 := (1, 1, 1)
  numLights : ℤ := 0
  lights : List Light := List.replicate MAX_LIGHTS {}

/-- The field copy performed by UniformData::setLight (the SceneModel::Light
overload): only type, position, direction, coneAngle, aConstant and
aQuadratic are written; colour, concentration, aLinear and emitWireframe are
left as they were in the slot. -/
def copySceneLight (slot : Light) (light : SceneLight) (type : LightType) : Light :=
  { slot with
      type := type.toScalar
      position := light.position
      direction := light.direction
      coneAngle := light.coneAngleDegrees
      aConstant := light.constantAttenuation
      aQuadratic := light.quadraticAttenuation }

/-- UniformData::setLight (int, SceneModel::Light, LightType): guarded by
index < MAX_LIGHTS; the second guard index >= 0 of the C++ is vacuous for a
natural index (every call site passes an unsigned counter). -/
def UniformData.setLight (data : UniformData) (index : ℕ) (light : SceneLight)
    (type : LightType) : UniformData :=
  if index < MAX_LIGHTS then
    let slot := copySceneLight (data.lights.getD index {}) light type
    { data with lights := data.lights.set index slot }
  else data

/-- UniformData::setLight (int, Light): overwrites the whole slot under the
same guard. -/
def UniformData.setLightRecord (data : UniformData) (index : ℕ)
    (light : Light) : UniformData :=
  if index < MAX_LIGHTS then
    { data with lights := data.lights.set index light }
  else data

/-- util::clamp of Utility/Maths.h (the arithmetic overload, which
setLightCount instantiates at int): return the lower bound when the value is
below it, the upper bound when the value is above it, and the value itself
otherwise.  The C++ parameters are named value, min and max; the bounds are
lo and hi here because min and max name the lattice operations in Lean. -/
def clampI (value lo hi : ℤ) : ℤ :=
  if value < lo then lo
  else if value > hi then hi
  else value

/-- For an ordered pair of bounds, util::clamp agrees with the max-min
composition. -/
theorem clampI_eq (value lo hi : ℤ) (h : lo ≤ hi) :
    clampI value lo hi = max lo (min value hi) := by
  unfold clampI
  split
  · omega
  · split <;> omega

/-- UniformData::setLightCount: stores util::clamp (count, 0, MAX_LIGHTS). -/
def UniformData.setLightCount (data : UniformData) (count : ℤ) : UniformData :=
  { data with numLights := clampI count 0 MAX_LIGHTS }

/-- MyView::createWireframeLight: a default-constructed Light whose position
and direction come from the camera, with aConstant 1, aLinear 0.3,
aQuadratic 0, the emitWireframe flag set and the Point type tag. -/
def createWireframeLight (scene : SceneContext) : Light :=
  { position := scene.cameraPosition
    direction := scene.cameraDirection
    aConstant := 1
    aLinear := 3 / 10
    aQuadratic := 0
    emitWireframe := 1
    type := LightType.Point.toScalar }

/-- The light loop of MyView::setUniforms: data.setLight (i, lights[i],
LightType::Spot) for each index in order. -/
def setSceneLights : UniformData → List SceneLight → ℕ → UniformData
  | data, [], _ => data
  | data, light :: rest, i =>
    setSceneLights (data.setLight i light LightType.Spot) rest (i + 1)

/-- The lighting part of MyView::setUniforms: copy every scene light with
the Spot tag, append the wireframe light when wireframe mode is active
(advancing the running count), then store the clamped light count. -/
def setUniformsLights (scene : SceneContext) (wireframeMode : Bool)
    (data : UniformData) : UniformData :=
  let lights := scene.allLights
  let data1 := setSceneLights data lights 0
  let step :=
    if wireframeMode then
      (data1.setLightRecord lights.length (createWireframeLight scene),
        lights.length + 1)
    else (data1, lights.length)
  step.1.setLightCount step.2

theorem getD_set_eq_of_lt {α : Type} (l : List α) (i : ℕ) (a d : α)
    (h : i < l.length) : (l.set i a).getD i d = a := by
  rw [List.getD_eq_getElem?_getD, List.getElem?_set_eq_of_lt a h]
  rfl

theorem getD_set_ne {α : Type} (l : List α) (i j : ℕ) (a d : α) (h : i ≠ j) :
    (l.set i a).getD j d = l.getD j d := by
  rw [List.getD_eq_getElem?_getD, List.getElem?_set_ne h,
    ← List.getD_eq_getElem?_getD]

theorem getD_replicate_of_lt {α : Type} (n i : ℕ) (a d : α) (h : i < n) :
    (List.replicate n a).getD i d = a := by
  rw [List.getD_eq_getElem?_getD, List.getElem?_replicate_of_lt h]
  rfl

theorem setLight_numLights (data : UniformData) (index : ℕ)
    (light : SceneLight) (type : LightType) :
    (data.setLight index light type).numLights = data.numLights := by
  unfold UniformData.setLight
  split <;> rfl

theorem setLight_length (data : UniformData) (index : ℕ)
    (light : SceneLight) (type : LightType) :
    (data.setLight index light type).lights.length = data.lights.length := by
  unfold UniformData.setLight
  split <;> simp

theorem setSceneLights_numLights (lights : List SceneLight) :
    ∀ data i0, (setSceneLights data lights i0).numLights = data.numLights := by
  induction lights with
  | nil => intro data i0; rfl
  | cons light rest ih =>
    intro data i0
    rw [setSceneLights, ih, setLight_numLights]

theorem setSceneLights_length (lights : List SceneLight) :
    ∀ data i0,
      (setSceneLights data lights i0).lights.length = data.lights.length := by
  induction lights with
  | nil => intro data i0; rfl
  | cons light rest ih =>
    intro data i0
    rw [setSceneLights, ih, setLight_length]

/-- Slot content after the setUniforms light loop: slot j receives the copy
of the scene light with index j - i0 when j lies in the written range and
below MAX_LIGHTS, and is untouched otherwise. -/
theorem setSceneLights_getD (lights : List SceneLight) :
    ∀ data i0 j, data.lights.length = MAX_LIGHTS →
      (setSceneLights data lights i0).lights.getD j {}
        = if i0 ≤ j ∧ j < i0 + lights.length ∧ j < MAX_LIGHTS then
            copySceneLight (data.lights.getD j {})
              (lights.getD (j - i0) dummySceneLight) LightType.Spot
          else data.lights.getD j {} := by
  induction lights with
  | nil =>
    intro data i0 j hlen
    rw [setSceneLights, if_neg]
    rintro ⟨h1, h2, h3⟩
    simp at h2
    omega
  | cons light rest ih =>
    intro data i0 j hlen
    rw [setSceneLights, ih _ (i0 + 1) j (by rw [setLight_length]; exact hlen)]
    by_cases hj0 : j = i0
    · subst hj0
      rw [if_neg (by omega)]
      by_cases hcap : j < MAX_LIGHTS
      · rw [if_pos ⟨le_refl j, by simp only [List.length_cons]; omega, hcap⟩]
        unfold UniformData.setLight
        rw [if_pos hcap]
        have hjlen : j < data.lights.length := by omega
        show (data.lights.set j _).getD j {} = _
        rw [getD_set_eq_of_lt _ _ _ _ hjlen]
        simp
      · rw [if_neg (by omega)]
        unfold UniformData.setLight
        rw [if_neg hcap]
    · have hslot : (data.setLight i0 light LightType.Spot).lights.getD j {}
          = data.lights.getD j {} := by
        unfold UniformData.setLight
        split
        · exact getD_set_ne _ _ _ _ _ (fun h => hj0 h.symm)
        · rfl
      rw [hslot]
      by_cases hrange : i0 + 1 ≤ j ∧ j < i0 + 1 + rest.length ∧ j < MAX_LIGHTS
      · obtain ⟨ha, hb, hc⟩ := hrange
        rw [if_pos ⟨ha, hb, hc⟩,
          if_pos ⟨by omega, by simp only [List.length_cons]; omega, hc⟩]
        have hsub : j - i0 = (j - (i0 + 1)) + 1 := by omega
        rw [hsub, List.getD_cons_succ]
      · have hneg : ¬(i0 ≤ j ∧ j < i0 + (light :: rest).length ∧ j < MAX_LIGHTS) := by
          rintro ⟨ha, hb, hc⟩
          simp only [List.length_cons] at hb
          exact hrange ⟨by omega, by omega, hc⟩
        rw [if_neg hrange, if_neg hneg]

/-- A concrete scene light whose colour, concentration and linear
attenuation coefficient differ from the defaults of struct Light. -/
def colourfulSceneLight : SceneLight :=
  { position := (1, 2, 3), direction := (0, 1, 0), colour := (1/4, 1/2, 3/4),
    coneAngleDegrees := 30, concentration := 3, constantAttenuation := 2,
    linearAttenuation := 1/2, quadraticAttenuation := 5 }

/-- C3 counterexample: copying a scene light whose colour is not (1, 1, 1)
into slot 0 of a default uniform block stores a record whose colour is the
default (1, 1, 1), not the colour of the source light; the concentration and
linear attenuation coefficient are likewise not copied. -/
theorem setLight_drops_fields_counterexample :
    ((({} : UniformData).setLight 0 colourfulSceneLight
        LightType.Spot).lights.getD 0 {}).colour ≠ colourfulSceneLight.colour ∧
    ((({} : UniformData).setLight 0 colourfulSceneLight
        LightType.Spot).lights.getD 0 {}).concentration
      ≠ colourfulSceneLight.concentration ∧
    ((({} : UniformData).setLight 0 colourfulSceneLight
        LightType.Spot).lights.getD 0 {}).aLinear
      ≠ colourfulSceneLight.linearAttenuation := by
  have hlen : (({} : UniformData)).lights.length = MAX_LIGHTS := by
    show (List.replicate MAX_LIGHTS ({} : Light)).length = MAX_LIGHTS
    simp
  have hdef : (({} : UniformData)).lights.getD 0 {} = {} := by
    show (List.replicate MAX_LIGHTS ({} : Light)).getD 0 {} = {}
    exact getD_replicate_of_lt _ _ _ _ (by decide)
  have hslot : ((({} : UniformData)).setLight 0 colourfulSceneLight
      LightType.Spot).lights.getD 0 {}
      = copySceneLight {} colourfulSceneLight LightType.Spot := by
    unfold UniformData.setLight
    rw [if_pos (by decide : (0:ℕ) < MAX_LIGHTS)]
    rw [getD_set_eq_of_lt _ _ _ _ (by rw [hlen]; decide), hdef]
  refine ⟨?_, ?_, ?_⟩ <;> rw [hslot] <;>
    simp [copySceneLight, colourfulSceneLight, Prod.ext_iff]

/-- C3 (amended): for every light stored at an index below MAX_LIGHTS, the
stored record holds the supplied type tag and the source light position,
direction, cone half-angle, and the constant and quadratic distance
attenuation coefficients; the colour, beam concentration and linear
attenuation coefficient are not copied and keep the values the slot already
held (the default-constructed values for a freshly constructed block). -/
theorem setLight_copies_fields (data : UniformData) (index : ℕ)
    (light : SceneLight) (type : LightType)
    (hidx : index < MAX_LIGHTS) (hlen : data.lights.length = MAX_LIGHTS) :
    ((data.setLight index light type).lights.getD index {}).type
        = type.toScalar ∧
    ((data.setLight index light type).lights.getD index {}).position
        = light.position ∧
    ((data.setLight index light type).lights.getD index {}).direction
        = light.direction ∧
    ((data.setLight index light type).lights.getD index {}).coneAngle
        = light.coneAngleDegrees ∧
    ((data.setLight index light type).lights.getD index {}).aConstant
        = light.constantAttenuation ∧
    ((data.setLight index light type).lights.getD index {}).aQuadratic
        = light.quadraticAttenuation ∧
    ((data.setLight index light type).lights.getD index {}).colour
        = (data.lights.getD index {}).colour ∧
    ((data.setLight index light type).lights.getD index {}).concentration
        = (data.lights.getD index {}).concentration ∧
    ((data.setLight index light type).lights.getD index {}).aLinear
        = (data.lights.getD index {}).aLinear := by
  have hset : (data.setLight index light type).lights.getD index {}
      = copySceneLight (data.lights.getD index {}) light type := by
    unfold UniformData.setLight
    rw [if_pos hidx]
    have hjlen : index < data.lights.length := by omega
    exact getD_set_eq_of_lt _ _ _ _ hjlen
  rw [hset]
  exact ⟨rfl, rfl, rfl, rfl, rfl, rfl, rfl, rfl, rfl⟩

/-- C3 witness: the amended theorem applied to slot 0 of a freshly
constructed uniform block and a concrete scene light. -/
theorem setLight_copies_fields_witness :
    ((({} : UniformData).setLight 0 dummySceneLight LightType.Spot).lights.getD
        0 {}).type = LightType.Spot.toScalar ∧
    ((({} : UniformData).setLight 0 dummySceneLight LightType.Spot).lights.getD
        0 {}).position = dummySceneLight.position ∧
    ((({} : UniformData).setLight 0 dummySceneLight LightType.Spot).lights.getD
        0 {}).direction = dummySceneLight.direction ∧
    ((({} : UniformData).setLight 0 dummySceneLight LightType.Spot).lights.getD
        0 {}).coneAngle = dummySceneLight.coneAngleDegrees ∧
    ((({} : UniformData).setLight 0 dummySceneLight LightType.Spot).lights.getD
        0 {}).aConstant = dummySceneLight.constantAttenuation ∧
    ((({} : UniformData).setLight 0 dummySceneLight LightType.Spot).lights.getD
        0 {}).aQuadratic = dummySceneLight.quadraticAttenuation ∧
    ((({} : UniformData).setLight 0 dummySceneLight LightType.Spot).lights.getD
        0 {}).colour = ((({} : UniformData).lights.getD 0 {})).colour ∧
    ((({} : UniformData).setLight 0 dummySceneLight LightType.Spot).lights.getD
        0 {}).concentration = ((({} : UniformData).lights.getD 0 {})).concentration ∧
    ((({} : UniformData).setLight 0 dummySceneLight LightType.Spot).lights.getD
        0 {}).aLinear = ((({} : UniformData).lights.getD 0 {})).aLinear :=
  setLight_copies_fields {} 0 dummySceneLight LightType.Spot
    (by decide) (by decide)

/-- C4: for every supplied light list of length k, the uniform block built
by the lighting part of setUniforms stores the clamped count
min (k + wireframe, MAX_LIGHTS), never above MAX_LIGHTS; the first
min (k, MAX_LIGHTS) slots hold the copies of the first min (k, MAX_LIGHTS)
scene lights in their original order (the tail beyond MAX_LIGHTS is
silently dropped); and when wireframe mode is active and k < MAX_LIGHTS the
synthesized wireframe light occupies the slot right after the regular
lights. -/
theorem lightClamp_spec (scene : SceneContext) (wireframeMode : Bool) :
    (setUniformsLights scene wireframeMode {}).numLights
        = min ((scene.allLights.length : ℤ) + (if wireframeMode then 1 else 0))
            (MAX_LIGHTS : ℤ) ∧
    (setUniformsLights scene wireframeMode {}).numLights ≤ (MAX_LIGHTS : ℤ) ∧
    (∀ i, i < min scene.allLights.length MAX_LIGHTS →
      (setUniformsLights scene wireframeMode {}).lights.getD i {}
        = copySceneLight {} (scene.allLights.getD i dummySceneLight)
            LightType.Spot) ∧
    (wireframeMode = true → scene.allLights.length < MAX_LIGHTS →
      (setUniformsLights scene wireframeMode {}).lights.getD
          scene.allLights.length {}
        = createWireframeLight scene) := by
  have hlen0 : (({} : UniformData) : UniformData).lights.length = MAX_LIGHTS := by
    simp [UniformData.lights]
  have hloop := setSceneLights_getD scene.allLights {} 0
  refine ⟨?_, ?_, ?_, ?_⟩
  · cases wireframeMode <;>
      simp only [setUniformsLights, UniformData.setLightCount,
        Bool.false_eq_true, if_true, if_false] <;>
      rw [clampI_eq _ _ _ (by norm_num [MAX_LIGHTS])] <;>
      omega
  · cases wireframeMode <;>
      simp only [setUniformsLights, UniformData.setLightCount,
        Bool.false_eq_true, if_true, if_false] <;>
      rw [clampI_eq _ _ _ (by norm_num [MAX_LIGHTS])] <;>
      omega
  · intro i hi
    have hi1 : i < scene.allLights.length := lt_of_lt_of_le hi (min_le_left _ _)
    have hi2 : i < MAX_LIGHTS := lt_of_lt_of_le hi (min_le_right _ _)
    have hslot := hloop i hlen0
    rw [if_pos ⟨Nat.zero_le i, by omega, hi2⟩] at hslot
    have hdef : (({} : UniformData) : UniformData).lights.getD i {} = {} := by
      show (List.replicate MAX_LIGHTS ({} : Light)).getD i {} = {}
      exact getD_replicate_of_lt _ _ _ _ hi2
    rw [hdef, Nat.sub_zero] at hslot
    cases wireframeMode
    · simp only [setUniformsLights, UniformData.setLightCount,
        Bool.false_eq_true, if_false]
      simpa using hslot
    · simp only [setUniformsLights, UniformData.setLightCount,
        UniformData.setLightRecord, if_true]
      split
      · rw [getD_set_ne _ _ _ _ _ (by omega : scene.allLights.length ≠ i)]
        simpa using hslot
      · simpa using hslot
  · intro hw hk
    subst hw
    simp only [setUniformsLights, UniformData.setLightCount,
      UniformData.setLightRecord, if_true]
    rw [if_pos hk]
    have hlenloop : (setSceneLights {} scene.allLights 0).lights.length
        = MAX_LIGHTS := by rw [setSceneLights_length]; exact hlen0
    exact getD_set_eq_of_lt _ _ _ _ (by omega)

/-! ### Pool capacity computation (MyView::highestInstanceCount,
MyView::allocateExtraBuffers) -/

/-- MyView::highestInstanceCount: walk the mesh list, tracking the largest
instance list size the scene reports for any mesh id. -/
def highestInstanceCount (scene : SceneContext)
    (meshes : List (ℕ × Mesh)) : ℕ :=
  meshes.foldl
    (fun highest pair =>
      let current := (scene.instancesByMeshId pair.1).length
      if current > highest then current else highest) 0

/-- Byte size of a MaterialID entry of the material-index pool: the fragment
shader documents 4 bytes of data per instance in the ids buffer. -/
def sizeofMaterialID : ℕ := 4

/-- The transform pool byte size allocated by MyView::allocateExtraBuffers:
pool capacity times sizeof (glm::mat4) times 2. -/
def transformPoolSize (scene : SceneContext) (meshes : List (ℕ × Mesh)) : ℕ :=
  highestInstanceCount scene meshes * sizeofMat4 * 2

/-- The material-index pool byte size allocated by
MyView::allocateExtraBuffers: pool capacity times sizeof (MaterialID). -/
def materialIDPoolSize (scene : SceneContext) (meshes : List (ℕ × Mesh)) : ℕ :=
  highestInstanceCount scene meshes * sizeofMaterialID

theorem highestInstanceCount_foldl_le (scene : SceneContext) :
    ∀ (meshes : List (ℕ × Mesh)) (acc : ℕ),
      acc ≤ meshes.foldl
        (fun highest pair =>
          let current := (scene.instancesByMeshId pair.1).length
          if current > highest then current else highest) acc := by
  intro meshes
  induction meshes with
  | nil => intro acc; exact le_refl acc
  | cons pair rest ih =>
    intro acc
    simp only [List.foldl_cons]
    split
    · exact le_trans (le_of_lt (by assumption)) (ih _)
    · exact ih acc

theorem highestInstanceCount_foldl_mem (scene : SceneContext) :
    ∀ (meshes : List (ℕ × Mesh)) (acc : ℕ),
      (∀ pair ∈ meshes, (scene.instancesByMeshId pair.1).length
          ≤ meshes.foldl
            (fun highest pair =>
              let current := (scene.instancesByMeshId pair.1).length
              if current > highest then current else highest) acc) ∧
      (meshes.foldl
          (fun highest pair =>
            let current := (scene.instancesByMeshId pair.1).length
            if current > highest then current else highest) acc = acc ∨
        ∃ pair ∈ meshes,
          meshes.foldl
            (fun highest pair =>
              let current := (scene.instancesByMeshId pair.1).length
              if current > highest then current else highest) acc
            = (scene.instancesByMeshId pair.1).length) := by
  intro meshes
  induction meshes with
  | nil => intro acc; exact ⟨by simp, Or.inl rfl⟩
  | cons pair rest ih =>
    intro acc
    simp only [List.foldl_cons]
    constructor
    · intro q hq
      rcases List.mem_cons.mp hq with hq | hq
      · subst hq
        refine le_trans ?_ (highestInstanceCount_foldl_le scene rest _)
        split
        · exact le_refl _
        · omega
      · exact (ih _).1 q hq
    · rcases (ih _).2 with heq | ⟨q, hq, heq⟩
      · rw [heq]
        split
        · exact Or.inr ⟨pair, List.mem_cons_self pair rest, rfl⟩
        · exact Or.inl rfl
      · exact Or.inr ⟨q, List.mem_cons_of_mem pair hq, heq⟩

/-- C5: the pool capacity computed at load is the maximum over all meshes of
the instance count of that mesh in the load-time scene snapshot: it bounds
the count of every mesh and, when non-zero, is attained by some mesh; the
transform pool is sized to two 4 by 4 matrices per slot at that capacity and
the material-index pool to one index per slot; and since the external scene
is the same object in every frame, the capacity bounds the live instance
count of every mesh in every frame of the session. -/
theorem poolCapacity_spec (scene : SceneContext) (meshes : List (ℕ × Mesh)) :
    (∀ pair ∈ meshes, (scene.instancesByMeshId pair.1).length
        ≤ highestInstanceCount scene meshes) ∧
    (highestInstanceCount scene meshes = 0 ∨
      ∃ pair ∈ meshes, (scene.instancesByMeshId pair.1).length
          = highestInstanceCount scene meshes) ∧
    transformPoolSize scene meshes
        = highestInstanceCount scene meshes * (2 * sizeofMat4) ∧
    materialIDPoolSize scene meshes
        = highestInstanceCount scene meshes * sizeofMaterialID := by
  obtain ⟨hle, hmem⟩ := highestInstanceCount_foldl_mem scene meshes 0
  refine ⟨hle, ?_, ?_, rfl⟩
  · rcases hmem with h | ⟨q, hq, h⟩
    · exact Or.inl h
    · exact Or.inr ⟨q, hq, h.symm⟩
  · unfold transformPoolSize
    ring

/-! ### The per-frame instance batcher (MyView::windowViewRender)

The static matrices and materialIDs vectors of windowViewRender are the two
frame pools, sized at load to the pool capacity; each frame, for each mesh
with a non-empty instance list, slots 0..n-1 are overwritten and the first
n slots are handed to glBufferSubData before the single instanced draw.
The material id lookup uses unordered_map::at, which throws
std::out_of_range for an id absent from the table; windowViewRender has no
handler, so the model propagates the exception as an Except error. -/

/-- Overwrites consecutive slots of a list starting at a given position,
one value after another (the effect of the indexed writes of the render
loop). -/
def setMany {α : Type} : List α → ℕ → List α → List α
  | l, _, [] => l
  | l, s, v :: vs => setMany (l.set s v) (s + 1) vs

/-- The one instanced draw issued for a mesh:
glDrawElementsInstancedBaseVertex (GL_TRIANGLES, elementCount,
GL_UNSIGNED_INT, elementsOffset, instanceCount, verticesIndex). -/
structure DrawCall where
  elementCount : ℕ
  elementsOffset : ℕ
  verticesIndex : ℕ
  instanceCount : ℕ

/-- What the render loop submits for one mesh: the matrices handed to
glBufferSubData from the transform pool (model then pvm per slot, 2n
matrices for n instances), the material ids handed to glBufferSubData from
the material-index pool (n ids), and the single draw call. -/
structure MeshRender where
  matricesUpload : List Mat4
  materialIDsUpload : List ℕ
  draw : DrawCall

/-- The instance loop of windowViewRender: for instance i, write the model
transform at pool slot offset i * 2 and the combined
projection * view * model transform at offset i * 2 + 1, then look the
instance material id up in m_materialIDs with unordered_map::at (an absent
id throws std::out_of_range) and write it at slot i of the id pool. -/
def writeInstances (scene : SceneContext) (projection view : Mat4)
    (materialIDs : List (ℕ × ℕ)) :
    List ℕ → ℕ → List Mat4 → List ℕ → Except String (List Mat4 × List ℕ)
  | [], _, matrices, ids => .ok (matrices, ids)
  | iid :: rest, i, matrices, ids =>
    let inst := scene.instanceById iid
    let model := inst.transformationMatrix
    let offset := i * 2
    let matrices2 := (matrices.set offset model).set (offset + 1)
      (projection * view * model)
    match materialIDs.lookup inst.materialId with
    | some mid => writeInstances scene projection view materialIDs rest
        (i + 1) matrices2 (ids.set i mid)
    | none => .error "std::out_of_range"

/-- The per-slot transform data of an instance list: model then
projection * view * model for each instance, in scene order. -/
def instanceMatrices (scene : SceneContext) (projection view : Mat4)
    (ids : List ℕ) : List Mat4 :=
  (ids.map fun iid =>
    [(scene.instanceById iid).transformationMatrix,
     projection * view * (scene.instanceById iid).transformationMatrix]).flatten

/-- The per-slot material id data of an instance list, in scene order. -/
def instanceMaterialIDs (scene : SceneContext) (materialIDs : List (ℕ × ℕ))
    (ids : List ℕ) : List ℕ :=
  ids.map fun iid =>
    ((materialIDs.lookup (scene.instanceById iid).materialId)).getD 0

/-- One iteration of the mesh loop of windowViewRender: an empty instance
list skips the mesh (no pool write, no upload, no draw); otherwise the
instance data is written into the pools, the first n slots of each pool are
uploaded and one instanced draw is issued with the recorded mesh
addressing. -/
def renderMesh (scene : SceneContext) (projection view : Mat4)
    (materialIDs : List (ℕ × ℕ)) (pools : List Mat4 × List ℕ)
    (pair : ℕ × Mesh) :
    Except String ((List Mat4 × List ℕ) × Option MeshRender) :=
  let instances := scene.instancesByMeshId pair.1
  let size := instances.length
  if size = 0 then .ok (pools, none)
  else
    match writeInstances scene projection view materialIDs instances 0
        pools.1 pools.2 with
    | .error e => .error e
    | .ok (matrices2, ids2) =>
      .ok ((matrices2, ids2), some
        { matricesUpload := matrices2.take (2 * size)
          materialIDsUpload := ids2.take size
          draw :=
            { elementCount := pair.2.elementCount
              elementsOffset := pair.2.elementsOffset
              verticesIndex := pair.2.verticesIndex
              instanceCount := size } })

/-- The mesh loop of windowViewRender, threading the two pools through the
meshes in their load-time order and collecting the submitted work. -/
def renderMeshes (scene : SceneContext) (projection view : Mat4)
    (materialIDs : List (ℕ × ℕ)) :
    List Mat4 × List ℕ → List (ℕ × Mesh) → Except String (List MeshRender)
  | _, [] => .ok []
  | pools, pair :: rest =>
    match renderMesh scene projection view materialIDs pools pair with
    | .error e => .error e
    | .ok (pools2, r) =>
      match renderMeshes scene projection view materialIDs pools2 rest with
      | .error e => .error e
      | .ok rs => .ok (match r with | none => rs | some x => x :: rs)

/-- MyView::windowViewRender, given the scene, the projection and view
matrices, the material id table and the packed mesh list: the two frame
pools are allocated at the load-time capacity and the mesh loop runs over
them. -/
def windowViewRender (scene : SceneContext) (projection view : Mat4)
    (materialIDs : List (ℕ × ℕ)) (meshes : List (ℕ × Mesh))
    (poolSize : ℕ) : Except String (List MeshRender) :=
  renderMeshes scene projection view materialIDs
    (List.replicate (poolSize * 2) 0, List.replicate poolSize 0) meshes

theorem setMany_length {α : Type} :
    ∀ (vals l : List α) (s : ℕ), (setMany l s vals).length = l.length := by
  intro vals
  induction vals with
  | nil => intro l s; rfl
  | cons v vs ih =>
    intro l s
    rw [setMany, ih, List.length_set]

theorem setMany_getElem? {α : Type} :
    ∀ (vals l : List α) (s j : ℕ), s + vals.length ≤ l.length →
      (setMany l s vals)[j]? =
        if s ≤ j ∧ j < s + vals.length then vals[j - s]? else l[j]? := by
  intro vals
  induction vals with
  | nil =>
    intro l s j h
    rw [setMany, if_neg (by simp)]
  | cons v vs ih =>
    intro l s j h
    simp only [List.length_cons] at h
    rw [setMany, ih (l.set s v) (s + 1) j
      (by rw [List.length_set]; omega)]
    by_cases h1 : s + 1 ≤ j ∧ j < s + 1 + vs.length
    · rw [if_pos h1, if_pos (by simp only [List.length_cons]; omega)]
      have hsub : j - s = (j - (s + 1)) + 1 := by omega
      rw [hsub, List.getElem?_cons_succ]
    · by_cases h0 : j = s
      · subst h0
        rw [if_neg h1, if_pos (by simp only [List.length_cons]; omega)]
        rw [List.getElem?_set_eq_of_lt v (by omega)]
        simp
      · rw [if_neg h1, if_neg (by simp only [List.length_cons]; omega)]
        rw [List.getElem?_set_ne (fun hc => h0 hc.symm)]

theorem setMany_take {α : Type} (vals l : List α)
    (h : vals.length ≤ l.length) :
    (setMany l 0 vals).take vals.length = vals := by
  apply List.ext_getElem?
  intro j
  by_cases hj : j < vals.length
  · rw [List.getElem?_take_of_lt hj,
      setMany_getElem? vals l 0 j (by omega),
      if_pos ⟨Nat.zero_le j, by omega⟩]
    simp
  · have h1 : (List.take vals.length (setMany l 0 vals)).length ≤ j := by
      rw [List.length_take, setMany_length]
      omega
    rw [List.getElem?_eq_none h1, List.getElem?_eq_none (by omega)]

theorem instanceMatrices_length (scene : SceneContext)
    (projection view : Mat4) (ids : List ℕ) :
    (instanceMatrices scene projection view ids).length = 2 * ids.length := by
  induction ids with
  | nil => rfl
  | cons iid rest ih =>
    have hcons : instanceMatrices scene projection view (iid :: rest)
        = (scene.instanceById iid).transformationMatrix ::
          (projection * view * (scene.instanceById iid).transformationMatrix) ::
            instanceMatrices scene projection view rest := by
      simp [instanceMatrices]
    rw [hcons, List.length_cons, List.length_cons, ih, List.length_cons]
    omega

theorem instanceMaterialIDs_length (scene : SceneContext)
    (materialIDs : List (ℕ × ℕ)) (ids : List ℕ) :
    (instanceMaterialIDs scene materialIDs ids).length = ids.length := by
  simp [instanceMaterialIDs]

/-- When every referenced material id resolves, the instance loop succeeds
and its effect on the two pools is exactly the slot-wise write of the
per-instance data, starting at the given slot index. -/
theorem writeInstances_ok (scene : SceneContext) (projection view : Mat4)
    (materialIDs : List (ℕ × ℕ)) :
    ∀ (ids : List ℕ) (i : ℕ) (matrices : List Mat4) (mIDs : List ℕ),
      (∀ iid ∈ ids,
        ((materialIDs.lookup (scene.instanceById iid).materialId)).isSome) →
      writeInstances scene projection view materialIDs ids i matrices mIDs
        = .ok (setMany matrices (i * 2)
              (instanceMatrices scene projection view ids),
            setMany mIDs i (instanceMaterialIDs scene materialIDs ids)) := by
  intro ids
  induction ids with
  | nil =>
    intro i matrices mIDs hm
    rfl
  | cons iid rest ih =>
    intro i matrices mIDs hm
    obtain ⟨mid, hmid⟩ := Option.isSome_iff_exists.mp
      (hm iid (List.mem_cons_self iid rest))
    simp only [writeInstances, hmid]
    rw [ih (i + 1) _ _ (fun q hq => hm q (List.mem_cons_of_mem iid hq))]
    have hmats : instanceMatrices scene projection view (iid :: rest)
        = (scene.instanceById iid).transformationMatrix ::
          (projection * view * (scene.instanceById iid).transformationMatrix) ::
            instanceMatrices scene projection view rest := by
      simp [instanceMatrices]
    have hids : instanceMaterialIDs scene materialIDs (iid :: rest)
        = mid :: instanceMaterialIDs scene materialIDs rest := by
      simp [instanceMaterialIDs, hmid]
    rw [hmats, hids]
    have harith : i * 2 + 1 + 1 = (i + 1) * 2 := by ring
    rw [setMany, setMany, setMany, harith]

/-- One step of the mesh loop under the resolvability and capacity
hypotheses: the mesh is skipped exactly when its instance list is empty;
otherwise the pools receive the instance data in slots 0..n-1 and the
uploads are exactly those first n slots, with the single draw carrying the
recorded addressing and instance count. -/
theorem renderMesh_ok (scene : SceneContext) (projection view : Mat4)
    (materialIDs : List (ℕ × ℕ)) (pools : List Mat4 × List ℕ)
    (pair : ℕ × Mesh)
    (hm : ∀ iid ∈ scene.instancesByMeshId pair.1,
      ((materialIDs.lookup (scene.instanceById iid).materialId)).isSome)
    (h1 : 2 * (scene.instancesByMeshId pair.1).length ≤ pools.1.length)
    (h2 : (scene.instancesByMeshId pair.1).length ≤ pools.2.length) :
    renderMesh scene projection view materialIDs pools pair
      = .ok ((setMany pools.1 0 (instanceMatrices scene projection view
              (scene.instancesByMeshId pair.1)),
            setMany pools.2 0 (instanceMaterialIDs scene materialIDs
              (scene.instancesByMeshId pair.1))),
          if (scene.instancesByMeshId pair.1).length = 0 then none
          else some
            { matricesUpload := instanceMatrices scene projection view
                (scene.instancesByMeshId pair.1)
              materialIDsUpload := instanceMaterialIDs scene materialIDs
                (scene.instancesByMeshId pair.1)
              draw :=
                { elementCount := pair.2.elementCount
                  elementsOffset := pair.2.elementsOffset
                  verticesIndex := pair.2.verticesIndex
                  instanceCount :=
                    (scene.instancesByMeshId pair.1).length } }) := by
  unfold renderMesh
  by_cases hz : (scene.instancesByMeshId pair.1).length = 0
  · rw [if_pos hz, if_pos hz]
    have hnil : scene.instancesByMeshId pair.1 = [] :=
      List.length_eq_zero.mp hz
    rw [hnil]
    rfl
  · rw [if_neg hz, if_neg hz]
    simp only [writeInstances_ok scene projection view materialIDs _ 0 _ _ hm]
    have htake1 : (setMany pools.1 (0 * 2) (instanceMatrices scene projection
        view (scene.instancesByMeshId pair.1))).take
          (2 * (scene.instancesByMeshId pair.1).length)
        = instanceMatrices scene projection view
            (scene.instancesByMeshId pair.1) := by
      rw [show (0 : ℕ) * 2 = 0 from rfl,
        show 2 * (scene.instancesByMeshId pair.1).length
          = (instanceMatrices scene projection view
              (scene.instancesByMeshId pair.1)).length from
          (instanceMatrices_length scene projection view _).symm]
      exact setMany_take _ _ (by rw [instanceMatrices_length]; omega)
    have htake2 : (setMany pools.2 0 (instanceMaterialIDs scene materialIDs
        (scene.instancesByMeshId pair.1))).take
          (scene.instancesByMeshId pair.1).length
        = instanceMaterialIDs scene materialIDs
            (scene.instancesByMeshId pair.1) := by
      rw [show (scene.instancesByMeshId pair.1).length
          = (instanceMaterialIDs scene materialIDs
              (scene.instancesByMeshId pair.1)).length from
          (instanceMaterialIDs_length scene materialIDs _).symm]
      exact setMany_take _ _ (by rw [instanceMaterialIDs_length]; omega)
    simp only [htake1, htake2]

/-- C6: in every frame, with every referenced material id present in the
table and no instance list exceeding the pool capacity, the mesh loop
processes the meshes in their load-time order; a mesh with an empty
instance list contributes nothing (no pool write is uploaded and no draw is
issued), and every other mesh contributes exactly one instanced draw whose
uploads are the first n pool slots, holding the model and
projection * view * model transforms and the material ids of its n
instances in the order the scene returns them, the draw using the recorded
verticesIndex, elementsOffset and elementCount of the mesh with instance
count n. -/
theorem instanceBatcher_spec (scene : SceneContext) (projection view : Mat4)
    (materialIDs : List (ℕ × ℕ)) (meshes : List (ℕ × Mesh)) (poolSize : ℕ)
    (hcap : ∀ pair ∈ meshes,
      (scene.instancesByMeshId pair.1).length ≤ poolSize)
    (hmat : ∀ pair ∈ meshes, ∀ iid ∈ scene.instancesByMeshId pair.1,
      ((materialIDs.lookup (scene.instanceById iid).materialId)).isSome) :
    windowViewRender scene projection view materialIDs meshes poolSize
      = .ok (meshes.filterMap fun pair =>
          if (scene.instancesByMeshId pair.1).length = 0 then none
          else some
            { matricesUpload := instanceMatrices scene projection view
                (scene.instancesByMeshId pair.1)
              materialIDsUpload := instanceMaterialIDs scene materialIDs
                (scene.instancesByMeshId pair.1)
              draw :=
                { elementCount := pair.2.elementCount
                  elementsOffset := pair.2.elementsOffset
                  verticesIndex := pair.2.verticesIndex
                  instanceCount :=
                    (scene.instancesByMeshId pair.1).length } }) := by
  unfold windowViewRender
  have hgen : ∀ (ms : List (ℕ × Mesh)) (pools : List Mat4 × List ℕ),
      pools.1.length = poolSize * 2 → pools.2.length = poolSize →
      (∀ pair ∈ ms, (scene.instancesByMeshId pair.1).length ≤ poolSize) →
      (∀ pair ∈ ms, ∀ iid ∈ scene.instancesByMeshId pair.1,
        ((materialIDs.lookup (scene.instanceById iid).materialId)).isSome) →
      renderMeshes scene projection view materialIDs pools ms
        = .ok (ms.filterMap fun pair =>
            if (scene.instancesByMeshId pair.1).length = 0 then none
            else some
              { matricesUpload := instanceMatrices scene projection view
                  (scene.instancesByMeshId pair.1)
                materialIDsUpload := instanceMaterialIDs scene materialIDs
                  (scene.instancesByMeshId pair.1)
                draw :=
                  { elementCount := pair.2.elementCount
                    elementsOffset := pair.2.elementsOffset
                    verticesIndex := pair.2.verticesIndex
                    instanceCount :=
                      (scene.instancesByMeshId pair.1).length } }) := by
    intro ms
    induction ms with
    | nil => intro pools hp1 hp2 hc hm; rfl
    | cons pair rest ih =>
      intro pools hp1 hp2 hc hm
      have hcp := hc pair (List.mem_cons_self pair rest)
      rw [renderMeshes]
      simp only [renderMesh_ok scene projection view materialIDs pools pair
        (hm pair (List.mem_cons_self pair rest)) (by omega) (by omega)]
      rw [ih _ (by rw [setMany_length]; exact hp1)
        (by rw [setMany_length]; exact hp2)
        (fun q hq => hc q (List.mem_cons_of_mem pair hq))
        (fun q hq => hm q (List.mem_cons_of_mem pair hq))]
      rw [List.filterMap_cons]
      by_cases hz : (scene.instancesByMeshId pair.1).length = 0
      · rw [if_pos hz]
      · rw [if_neg hz]
  exact hgen meshes _ (by simp) (by simp) hcap hmat

/-- A scene with one mesh and one instance whose material id (5) is absent
from an empty material table: the failing input of claim C2. -/
def unknownMaterialScene : SceneContext :=
  { instancesByMeshId := fun _ => [7]
    instanceById := fun _ => { transformationMatrix := 1, materialId := 5 }
    allLights := []
    cameraPosition := (0, 0, 0)
    cameraDirection := (0, 0, 1)
    ambientColour := (0, 0, 0) }

/-- C2: rendering an instance whose material id is absent from the material
id table does not fall back to a default material: the unordered_map::at
lookup of windowViewRender throws std::out_of_range with no handler on the
path, so the frame is aborted.  (The earlier revision of the renderer kept
in the repository catches the same lookup and substitutes a
default-constructed black-diffuse material, which is the behaviour the
specification describes.) -/
theorem unknownMaterial_aborts_frame :
    windowViewRender unknownMaterialScene 1 1 []
        [(0, { verticesIndex := 0, elementsOffset := 0, elementCount := 6 })] 1
      = .error "std::out_of_range" := rfl

/-- A two-mesh scene used to witness the instance batcher theorem: mesh 0
has two instances, mesh 1 has none. -/
def batcherScene : SceneContext :=
  { instancesByMeshId := fun m => if m = 0 then [0, 1] else []
    instanceById := fun i => { transformationMatrix := 1, materialId := i }
    allLights := []
    cameraPosition := (0, 0, 0)
    cameraDirection := (0, 0, 1)
    ambientColour := (0, 0, 0) }

/-- The material id table used by the instance batcher witness. -/
def batcherTable : List (ℕ × ℕ) := [(0, 0), (1, 2)]

/-- The packed meshes used by the instance batcher witness. -/
def batcherMeshes : List (ℕ × Mesh) :=
  [(0, { verticesIndex := 0, elementsOffset := 0, elementCount := 6 }),
   (1, { verticesIndex := 4, elementsOffset := 24, elementCount := 9 })]

/-- C6 witness: the instance batcher theorem applied to a concrete scene
with a populated mesh and an empty mesh, at pool capacity 2. -/
theorem instanceBatcher_spec_witness :
    windowViewRender batcherScene 1 1 batcherTable batcherMeshes 2
      = .ok (batcherMeshes.filterMap fun pair =>
          if (batcherScene.instancesByMeshId pair.1).length = 0 then none
          else some
            { matricesUpload := instanceMatrices batcherScene 1 1
                (batcherScene.instancesByMeshId pair.1)
              materialIDsUpload := instanceMaterialIDs batcherScene
                batcherTable (batcherScene.instancesByMeshId pair.1)
              draw :=
                { elementCount := pair.2.elementCount
                  elementsOffset := pair.2.elementsOffset
                  verticesIndex := pair.2.verticesIndex
                  instanceCount :=
                    (batcherScene.instancesByMeshId pair.1).length } }) :=
  instanceBatcher_spec batcherScene 1 1 batcherTable batcherMeshes 2
    (by decide) (by decide)

/-! ### The material table (MyView::buildMaterialData,
util::loadImagesFromScene) -/

/-- A decoded image as far as the loader observes it: tygra::imageFromPNG
returns an image and containsData reports whether decoding succeeded. -/
structure Image where
  containsData : Bool
deriving DecidableEq

/-- A SceneModel::Material as supplied by the external scene collaborator:
an id, the ambient map filename (empty for no texture reference), and the
shading fields the table builder copies. -/
structure SceneMaterial where
  materialId : ℕ
  ambientMap : String
  diffuseColour : Vec3
  specularColour : Vec3
  shininess : ℚ
deriving DecidableEq

/-- A placeholder SceneMaterial used as the default of list indexing. -/
def dummySceneMaterial : SceneMaterial :=
  { materialId := 0, ambientMap := "", diffuseColour := (0, 0, 0),
    specularColour := (0, 0, 0), shininess := 0 }

/-- util::loadImagesFromScene: for each material in order, attempt to decode
its ambient map and keep the (filename, image) pair only when the image
holds data.  Duplicate filenames are kept once per material that references
them; nothing is deduplicated. -/
def loadImagesFromScene (imageFromPNG : String → Image)
    (materials : List SceneMaterial) : List (String × Image) :=
  materials.filterMap fun material =>
    let filename := material.ambientMap
    let image := imageFromPNG material.ambientMap
    if image.containsData then some (filename, image) else none

/-- The texture id resolution of the buildMaterialData loop: -1 for an empty
ambient map, otherwise the first index of the loaded image list whose
filename equals the map, and -1 when none matches. -/
def resolveTextureID (images : List (String × Image)) (texture : String) : ℚ :=
  if texture = "" then -1
  else
    match images.findIdx? (fun p => p.1 == texture) with
    | some i => (i : ℚ)
    | none => -1

/-- MyView::Material: the fixed-size buffer-ready record, with the member
initialisers of the declaration as the default field values (black diffuse,
no texture). -/
structure Material where
  diffuseColour : Vec3 := (0, 0, 0)
  textureID : ℚ := -1
  specularColour : Vec3 := (1, 1, 1)
  shininess : ℚ := 0
deriving DecidableEq

/-- The body of the buildMaterialData loop: one buffer-ready record per
scene material. -/
def bufferMaterial (images : List (String × Image))
    (material : SceneMaterial) : Material :=
  { diffuseColour := material.diffuseColour
    textureID := resolveTextureID images material.ambientMap
    specularColour := material.specularColour
    shininess := material.shininess }

/-- MyView::buildMaterialData: load the images of the scene, then build one
fixed-size record per material in material-id order. -/
def buildMaterialData (imageFromPNG : String → Image)
    (materials : List SceneMaterial) : List Material :=
  let images := loadImagesFromScene imageFromPNG materials
  materials.map (bufferMaterial images)

/-- The deduplicated list of distinct texture references of the scene,
following the words of the specification for claim C9 (not the code): every
non-empty ambient map, first occurrences kept. -/
def dedupTextureList (materials : List SceneMaterial) : List String :=
  ((materials.map fun material => material.ambientMap).filter
    fun texture => texture != "").dedup

/-- The texture index the specification describes for claim C9: the position
of the reference in the deduplicated list. -/
def specTextureIndex (materials : List SceneMaterial) (texture : String) : ℚ :=
  if texture = "" then -1
  else
    match (dedupTextureList materials).findIdx? (fun t => t == texture) with
    | some i => (i : ℚ)
    | none => -1

/-- The decoder of the C9 counterexample: exactly the filenames A and B
decode. -/
def pngAB : String → Image := fun s => { containsData := s == "A" || s == "B" }

/-- The material list of the C9 counterexample: two materials reference
texture A and one references texture B, all of which decode. -/
def materialsAAB : List SceneMaterial :=
  [{ materialId := 0, ambientMap := "A", diffuseColour := (0, 0, 0),
     specularColour := (1, 1, 1), shininess := 0 },
   { materialId := 1, ambientMap := "A", diffuseColour := (0, 0, 0),
     specularColour := (1, 1, 1), shininess := 0 },
   { materialId := 2, ambientMap := "B", diffuseColour := (0, 0, 0),
     specularColour := (1, 1, 1), shininess := 0 }]

/-- C9 counterexample: with two materials referencing texture A and a third
referencing texture B, all decodable, the image list is not deduplicated
(A appears twice), so the third material stores texture index 2 while its
position in the deduplicated list of distinct textures is 1. -/
theorem materialTextureIndex_counterexample :
    ((buildMaterialData pngAB materialsAAB).getD 2 {}).textureID = 2 ∧
    specTextureIndex materialsAAB "B" = 1 ∧
    ((buildMaterialData pngAB materialsAAB).getD 2 {}).textureID
      ≠ specTextureIndex materialsAAB "B" := by
  refine ⟨?_, ?_, ?_⟩ <;>
    simp [buildMaterialData, loadImagesFromScene, materialsAAB, pngAB,
      bufferMaterial, resolveTextureID, specTextureIndex, dedupTextureList,
      List.findIdx?, List.dedup]

/-- C9 (amended): the texture index stored for a material is its first
match, by filename equality, in the image list built at load, which holds
one entry per material whose ambient map decodes, in material order and
with duplicate filenames retained; the index is -1 exactly when the
material has no texture reference or no image entry matches, and in
particular whenever its referenced image fails to decode. -/
theorem materialTextureIndex_spec (imageFromPNG : String → Image)
    (materials : List SceneMaterial) (i : ℕ) (hi : i < materials.length) :
    (((materials.getD i dummySceneMaterial).ambientMap = "" →
      ((buildMaterialData imageFromPNG materials).getD i {}).textureID = -1) ∧
    ((imageFromPNG
        (materials.getD i dummySceneMaterial).ambientMap).containsData
          = false →
      ((buildMaterialData imageFromPNG materials).getD i {}).textureID = -1) ∧
    (∀ j, (materials.getD i dummySceneMaterial).ambientMap ≠ "" →
      (loadImagesFromScene imageFromPNG materials).findIdx?
          (fun p => p.1 == (materials.getD i dummySceneMaterial).ambientMap)
        = some j →
      ((buildMaterialData imageFromPNG materials).getD i {}).textureID
        = (j : ℚ)) ∧
    ((materials.getD i dummySceneMaterial).ambientMap ≠ "" →
      (loadImagesFromScene imageFromPNG materials).findIdx?
          (fun p => p.1 == (materials.getD i dummySceneMaterial).ambientMap)
        = none →
      ((buildMaterialData imageFromPNG materials).getD i {}).textureID
        = -1)) := by
  have hrec : (buildMaterialData imageFromPNG materials).getD i {}
      = bufferMaterial (loadImagesFromScene imageFromPNG materials)
          (materials.getD i dummySceneMaterial) := by
    unfold buildMaterialData
    rw [List.getD_eq_getElem?_getD, List.getElem?_map,
      List.getElem?_eq_getElem hi]
    rw [List.getD_eq_getElem?_getD, List.getElem?_eq_getElem hi]
    rfl
  rw [hrec]
  set m := materials.getD i dummySceneMaterial with hm
  refine ⟨?_, ?_, ?_, ?_⟩
  · intro hempty
    simp [bufferMaterial, resolveTextureID, hempty]
  · intro hfail
    by_cases hempty : m.ambientMap = ""
    · simp [bufferMaterial, resolveTextureID, hempty]
    · have hnone : (loadImagesFromScene imageFromPNG materials).findIdx?
          (fun p => p.1 == m.ambientMap) = none := by
        rw [List.findIdx?_eq_none_iff]
        intro p hp
        obtain ⟨q, hq, hqp⟩ := List.mem_filterMap.mp hp
        by_cases hdec : (imageFromPNG q.ambientMap).containsData
        · rw [if_pos hdec] at hqp
          obtain rfl := (Option.some.injEq _ _).mp hqp
          by_cases heq : q.ambientMap = m.ambientMap
          · rw [heq] at hdec
            rw [hfail] at hdec
            exact absurd hdec (by simp)
          · simp [heq]
        · rw [if_neg hdec] at hqp
          exact absurd hqp (by simp)
      simp [bufferMaterial, resolveTextureID, hempty, hnone]
  · intro j hne hfound
    simp [bufferMaterial, resolveTextureID, hne, hfound]
  · intro hne hnone
    simp [bufferMaterial, resolveTextureID, hne, hnone]

/-- C9 witness: the amended theorem applied to the concrete decoder and
material list of the counterexample, at material index 0. -/
theorem materialTextureIndex_spec_witness :
    (((materialsAAB.getD 0 dummySceneMaterial).ambientMap = "" →
      ((buildMaterialData pngAB materialsAAB).getD 0 {}).textureID = -1) ∧
    ((pngAB
        (materialsAAB.getD 0 dummySceneMaterial).ambientMap).containsData
          = false →
      ((buildMaterialData pngAB materialsAAB).getD 0 {}).textureID = -1) ∧
    (∀ j, (materialsAAB.getD 0 dummySceneMaterial).ambientMap ≠ "" →
      (loadImagesFromScene pngAB materialsAAB).findIdx?
          (fun p => p.1 == (materialsAAB.getD 0 dummySceneMaterial).ambientMap)
        = some j →
      ((buildMaterialData pngAB materialsAAB).getD 0 {}).textureID
        = (j : ℚ)) ∧
    ((materialsAAB.getD 0 dummySceneMaterial).ambientMap ≠ "" →
      (loadImagesFromScene pngAB materialsAAB).findIdx?
          (fun p => p.1 == (materialsAAB.getD 0 dummySceneMaterial).ambientMap)
        = none →
      ((buildMaterialData pngAB materialsAAB).getD 0 {}).textureID = -1)) :=
  materialTextureIndex_spec pngAB materialsAAB 0 (by decide)

end Sponza
